import Mathlib

/-!
Verification of the react-data-grid selection / navigation / rendering logic.

The definitions below are a shallow embedding of the TypeScript source:
`src/DataGrid.tsx` (grid controller), `src/Row.tsx` and the unnamed `Cell`
and `Row` renderer variants, and `src/HeaderCell.tsx`.  Machine numbers are
modelled as `Int` (JS numbers used as array indices; `-1` is meaningful),
lengths as `Nat`.  JS `Set` becomes `Finset`, JS `null`/`undefined` becomes
`Option`.
-/

namespace RDG

/-- `Position` from `src/types.ts`: `{ idx, rowIdx }`. -/
structure Position where
  idx : Int
  rowIdx : Int
deriving Repr, DecidableEq

/-- `GridSelection` from `src/types.ts`: `{ rowStart, rowEnd, colStart, colEnd }`. -/
structure GridSelection where
  rowStart : Int
  rowEnd : Int
  colStart : Int
  colEnd : Int
deriving Repr, DecidableEq

/-- The argument `selectCell` receives: a position, optionally carrying a
requested selection (`position.sel` in `DataGrid.tsx`). -/
structure PositionArg where
  idx : Int
  rowIdx : Int
  sel : Option GridSelection
deriving Repr, DecidableEq

/-- `mode` of the selected position: `'SELECT'` or `'EDIT'`. -/
inductive CellMode where
  | select
  | edit
deriving Repr, DecidableEq

/-- The `selectedPosition` state of `DataGrid.tsx` (line 241):
`SelectCellState | EditCellState` projected onto the fields the claims are
about (`idx`, `rowIdx`, `mode`, and the optional `sel` spread into it). -/
structure SelectedState where
  idx : Int
  rowIdx : Int
  mode : CellMode
  sel : Option GridSelection
deriving Repr, DecidableEq

/-- `copiedPosition` state (line 242): `Position & { value }`.  The cell
value is modelled as an `Int`. -/
structure CopiedCell where
  idx : Int
  rowIdx : Int
  value : Int
deriving Repr, DecidableEq

/-- The grid-controller state relevant to the selection claims. -/
structure GridState where
  selected : SelectedState
  copied : Option CopiedCell
deriving Repr, DecidableEq

/-- The initial / unselected sentinel `{ idx: -1, rowIdx: -1, mode: 'SELECT' }`. -/
def unselectedSentinel : SelectedState := ⟨-1, -1, .select, none⟩

/-- Static grid dimensions a single render works with: `rows.length`,
`columns.length`, `rowsCount` (from `useViewportRows`) and `hasGroups`. -/
structure GridCfg where
  numRows : Nat
  numCols : Nat
  rowsCount : Nat
  hasGroups : Bool
deriving Repr, DecidableEq

/-- `hasGroups = groupBy.length > 0 && rowGrouper` (DataGrid.tsx line 292).
`rowGrouperProvided` stands for `rowGrouper` being a defined function. -/
def hasGroupsOf (groupBy : List String) (rowGrouperProvided : Bool) : Bool :=
  decide (groupBy.length > 0) && rowGrouperProvided

/-- `minColIdx = hasGroups ? -1 : 0` (DataGrid.tsx line 293). -/
def minColIdx (cfg : GridCfg) : Int :=
  if cfg.hasGroups then -1 else 0

/-- `isCellWithinBounds` (DataGrid.tsx lines 714-716). -/
def isCellWithinBounds (cfg : GridCfg) (p : Position) : Bool :=
  p.rowIdx ≥ 0 && p.rowIdx < (cfg.numRows : Int)
    && p.idx ≥ minColIdx cfg && p.idx < (cfg.numCols : Int)

/-- `isCellSelectionWithinBounds` (DataGrid.tsx lines 718-720). -/
def isCellSelectionWithinBounds (cfg : GridCfg) (s : GridSelection) : Bool :=
  s.rowStart ≥ 0 && s.rowEnd < (cfg.numRows : Int)
    && s.colStart ≥ minColIdx cfg && s.colEnd < (cfg.numCols : Int)

/-- The in-place mutation of `position` at the start of `selectCell`
(DataGrid.tsx lines 730-736): a requested `sel` with `colEnd === -1` is
expanded to the last column (forcing `idx` to 0 when `rowEnd !== -1`), and a
`sel` with `rowEnd === -1` is expanded to the last row. -/
def adjustPosition (cfg : GridCfg) (pos : PositionArg) : PositionArg :=
  let p1 : PositionArg :=
    match pos.sel with
    | some s =>
      if s.colEnd = -1 then
        { idx := if s.rowEnd ≠ -1 then 0 else pos.idx
          rowIdx := pos.rowIdx
          sel := some { s with colEnd := (cfg.numCols : Int) - 1 } }
      else pos
    | none => pos
  match p1.sel with
  | some s =>
    if s.rowEnd = -1 then { p1 with sel := some { s with rowEnd := (cfg.rowsCount : Int) - 1 } }
    else p1
  | none => p1

/-- The `setSelectedPosition` tail of `selectCell` (DataGrid.tsx lines
740-745): enter edit mode when `enableEditor && (isCellEditable(position) ||
position.idx === 0)`, otherwise select mode.  `editable` stands for the
`isCellEditable` oracle. -/
def storeSelected (editable : Position → Bool) (st : GridState)
    (p : PositionArg) (enableEditor : Bool) : GridState :=
  if enableEditor && (editable ⟨p.idx, p.rowIdx⟩ || p.idx == 0) then
    { st with selected := ⟨p.idx, p.rowIdx, .edit, p.sel⟩ }
  else
    { st with selected := ⟨p.idx, p.rowIdx, .select, p.sel⟩ }

/-- `selectCell` (DataGrid.tsx lines 727-748): refuse out-of-bounds
positions, expand `-1` selection sentinels, refuse out-of-bounds selections,
then store the (adjusted) position. -/
def selectCell (cfg : GridCfg) (editable : Position → Bool) (st : GridState)
    (pos : PositionArg) (enableEditor : Bool) : GridState :=
  if ! isCellWithinBounds cfg ⟨pos.idx, pos.rowIdx⟩ then st
  else
    let p := adjustPosition cfg pos
    match p.sel with
    | some s =>
      if ! isCellSelectionWithinBounds cfg s then st
      else storeSelected editable st p enableEditor
    | none => storeSelected editable st p enableEditor

/-- The condition of the render-time reset (DataGrid.tsx line 1094):
`selectedPosition.idx >= columns.length || selectedPosition.rowIdx >= rows.length`. -/
def renderResetNeeded (cfg : GridCfg) (sp : SelectedState) : Bool :=
  sp.idx ≥ (cfg.numCols : Int) || sp.rowIdx ≥ (cfg.numRows : Int)

/-- The render-time reset (DataGrid.tsx lines 1093-1098): when the stored
position is no longer valid, reset it to the unselected sentinel and clear
the copied position. -/
def renderReset (cfg : GridCfg) (st : GridState) : GridState :=
  if renderResetNeeded cfg st.selected then
    { selected := unselectedSentinel, copied := none }
  else st

/-- The default selection `{ rowStart: row, rowEnd: row, colStart: col,
colEnd: col }` built by `updateSelection` when no selection exists yet
(DataGrid.tsx line 782). -/
def initSelection (row col : Int) (sel : Option GridSelection) : GridSelection :=
  sel.getD ⟨row, row, col, col⟩

/-- `updateSelection` (DataGrid.tsx lines 781-804): grow or shrink the
current selection by one row/column in the direction of the pressed arrow
key, starting from the single-cell selection when none exists. -/
def updateSelection (cse : String) (row col : Int) (sel : Option GridSelection) : GridSelection :=
  let s := initSelection row col sel
  match cse with
  | "ArrowUp" =>
    if s.rowEnd > row then { s with rowEnd := s.rowEnd - 1 }
    else { s with rowStart := s.rowStart - 1 }
  | "ArrowDown" =>
    if s.rowStart < row then { s with rowStart := s.rowStart + 1 }
    else { s with rowEnd := s.rowEnd + 1 }
  | "ArrowLeft" =>
    if s.colEnd > col then { s with colEnd := s.colEnd - 1 }
    else { s with colStart := s.colStart - 1 }
  | "ArrowRight" =>
    if s.colStart < col then { s with colStart := s.colStart + 1 }
    else { s with colEnd := s.colEnd + 1 }
  | _ => s

/-- The slice of `selectedCellProps` the `Row` renderer's selection test
reads: the focused position and the optional selection range. -/
structure SelectedCellPropsView where
  idx : Int
  rowIdx : Int
  selection : Option GridSelection
deriving Repr, DecidableEq

/-- `isCellSelected` from `src/Row.tsx` lines 44-52: a cell is rendered as
selected when a selection exists, the cell is not the focused cell itself,
and the cell lies inside the selection rectangle (inclusive bounds). -/
def isCellSelected (scp : Option SelectedCellPropsView) (rowIdx colIdx : Int) : Bool :=
  match scp with
  | none => false
  | some p =>
    match p.selection with
    | none => false
    | some sel =>
      if p.idx = colIdx ∧ p.rowIdx = rowIdx then false
      else if sel.rowStart ≤ rowIdx ∧ sel.rowEnd ≥ rowIdx
              ∧ sel.colStart ≤ colIdx ∧ sel.colEnd ≥ colIdx then true
      else false

/-- `getSelectedCellsRange` (DataGrid.tsx lines 974-981): the `[colStart,
colEnd]` pair handed to a row whose index lies inside the selection's row
span, `undefined` otherwise. -/
def getSelectedCellsRange (sel : Option GridSelection) (rowIdx : Int) : Option (Int × Int) :=
  match sel with
  | none => none
  | some s =>
    if s.rowStart ≤ rowIdx ∧ s.rowEnd ≥ rowIdx then some (s.colStart, s.colEnd)
    else none

/-- The `RowsUpdateEvent` passed to `onRowsUpdate` by `handlePaste`
(DataGrid.tsx lines 556-563).  `updated` is `{ [cellKey]: value }`, modelled
as the pair of the key and the value. -/
structure PasteEvent where
  cellKey : String
  fromRow : Int
  toRow : Int
  updatedKey : String
  updatedValue : Int
  action : String
  fromCellKey : String
deriving Repr, DecidableEq

/-- `columns[i].key` for an `Int` index, over the list of column keys. -/
def colKeyAt (cols : List String) (i : Int) : String :=
  cols.getD i.toNat ""

/-- `handlePaste` (DataGrid.tsx lines 542-564): return `none` (no
`onRowsUpdate` call, no state change) unless something was copied, the
selected cell is editable, and the target differs from the copied cell;
otherwise emit the single `COPY_PASTE` event.  `rawIdx` stands for
`getRawRowIdx`, `selectedEditable` for `isCellEditable(selectedPosition)`. -/
def handlePaste (cols : List String) (rawIdx : Int → Int)
    (copied : Option CopiedCell) (selected : Position)
    (selectedEditable : Bool) : Option PasteEvent :=
  match copied with
  | none => none
  | some c =>
    if ! selectedEditable then none
    else if c.idx = selected.idx ∧ c.rowIdx = selected.rowIdx then none
    else some
      { cellKey := colKeyAt cols selected.idx
        fromRow := rawIdx c.rowIdx
        toRow := rawIdx selected.rowIdx
        updatedKey := colKeyAt cols selected.idx
        updatedValue := c.value
        action := "COPY_PASTE"
        fromCellKey := colKeyAt cols c.idx }

/-- The loop body of the group-row branch of `handleRowSelectionChange`
(DataGrid.tsx lines 336-343): for each child row, add its `rowKey` value to
the set when `checked`, delete it otherwise. -/
def applyChildSelection {K : Type} [DecidableEq K] (checked : Bool)
    (childKeys : List K) (selected : Finset K) : Finset K :=
  childKeys.foldl (fun s k => if checked then insert k s else s.erase k) selected

/-- The group-row branch of `handleRowSelectionChange` (DataGrid.tsx lines
336-346): the list of sets passed to `onSelectedRowsChange` (the branch
makes exactly one call, then returns). -/
def handleGroupRowSelection {K : Type} [DecidableEq K] (selected : Finset K)
    (childKeys : List K) (checked : Bool) : List (Finset K) :=
  [applyChildSelection checked childKeys selected]

/-- `toggleGroup` (DataGrid.tsx lines 378-386): toggle the id's membership
in `expandedGroupIds` and hand the new set to `onExpandedGroupIdsChange`. -/
def toggleGroup (expandedGroupIds : Finset Nat) (expandedGroupId : Nat) : Finset Nat :=
  if expandedGroupId ∈ expandedGroupIds then expandedGroupIds.erase expandedGroupId
  else insert expandedGroupId expandedGroupIds

/-- Events travelling over the `EventBus`. -/
inductive GridEvent where
  | selectCellEv (pos : PositionArg) (openEditor : Bool)
  | selectRowEv (rowIdx : Int) (checked : Bool) (isShiftClick : Bool)
  | toggleGroupEv (id : Nat)
deriving Repr, DecidableEq

/-- What the head of `handleKeyDown` does with a key press. -/
inductive KeyEffect where
  | copy
  | paste
  | dispatch (e : GridEvent)
  | fallthrough
deriving Repr, DecidableEq

/-- The first two guarded branches of `handleKeyDown` (DataGrid.tsx lines
407-443): the ctrl+C/ctrl+V branch (only on non-group rows with
`idx !== -1`), then the group-row expand/collapse branch, which dispatches
`'ToggleGroup'` with the focused group row's id; everything else falls
through to the `switch`. -/
def handleKeyDownEffect (enableCellCopyPaste ctrlHeld inBounds isGroup : Bool)
    (idx : Int) (key : String) (isExpanded : Bool) (groupId : Nat) : KeyEffect :=
  if enableCellCopyPaste && ctrlHeld && inBounds && !isGroup && idx != -1
      && key.toLower == "c" then .copy
  else if enableCellCopyPaste && ctrlHeld && inBounds && !isGroup && idx != -1
      && key.toLower == "v" then .paste
  else if inBounds && isGroup && idx == -1
      && ((key == "ArrowLeft" && isExpanded) || (key == "ArrowRight" && !isExpanded)) then
    .dispatch (.toggleGroupEv groupId)
  else .fallthrough

/-- `if (hasGroups) enableCellDragAndDrop = false` (DataGrid.tsx lines
295-298): the effective drag-and-drop flag every row is rendered with. -/
def effectiveEnableCellDragAndDrop (hasGroups : Bool) (enableCellDragAndDrop : Bool) : Bool :=
  if hasGroups then false else enableCellDragAndDrop

/-- One element produced by `getViewportRows` (DataGrid.tsx lines
1019-1091): its row index, its `top` offset, whether it is a group row, and
the `enableDrag` prop it carries (`none` for group rows — `GroupRowRenderer`
receives no such prop). -/
structure RowElement where
  rowIdx : Nat
  top : Nat
  isGroup : Bool
  enableDrag : Option Bool
deriving Repr, DecidableEq

/-- The body of the `getViewportRows` loop at index `rowIdx`. -/
def viewportRowElement (rowHeight totalHeaderHeight : Nat) (isGroupRow : Nat → Bool)
    (enableCellDragAndDrop : Bool) (rowIdx : Nat) : RowElement :=
  { rowIdx
    top := rowIdx * rowHeight + totalHeaderHeight
    isGroup := isGroupRow rowIdx
    enableDrag := if isGroupRow rowIdx then none else some enableCellDragAndDrop }

/-- The `for (let rowIdx = rowOverscanStartIdx; rowIdx <= rowOverscanEndIdx;
rowIdx++)` loop, driven by the remaining iteration count. -/
def viewportLoop (rowHeight totalHeaderHeight : Nat) (isGroupRow : Nat → Bool)
    (enableCellDragAndDrop : Bool) (rowIdx : Nat) : Nat → List RowElement
  | 0 => []
  | fuel + 1 =>
    viewportRowElement rowHeight totalHeaderHeight isGroupRow enableCellDragAndDrop rowIdx
      :: viewportLoop rowHeight totalHeaderHeight isGroupRow enableCellDragAndDrop (rowIdx + 1) fuel

/-- `getViewportRows` (DataGrid.tsx lines 1019-1091): one element per row
index in `[rowOverscanStartIdx, rowOverscanEndIdx]`, each placed at
`rowIdx * rowHeight + totalHeaderHeight`. -/
def getViewportRows (rowOverscanStartIdx rowOverscanEndIdx rowHeight totalHeaderHeight : Nat)
    (isGroupRow : Nat → Bool) (enableCellDragAndDrop : Bool) : List RowElement :=
  viewportLoop rowHeight totalHeaderHeight isGroupRow enableCellDragAndDrop
    rowOverscanStartIdx (rowOverscanEndIdx + 1 - rowOverscanStartIdx)

/-- The rows a grid render produces, with the drag flag wired through
`effectiveEnableCellDragAndDrop` as in `DataGrid.tsx` (lines 295-298 and
1079). -/
def renderedRows (cfg : GridCfg) (rowOverscanStartIdx rowOverscanEndIdx rowHeight totalHeaderHeight : Nat)
    (isGroupRow : Nat → Bool) (enableCellDragAndDrop : Bool) : List RowElement :=
  getViewportRows rowOverscanStartIdx rowOverscanEndIdx rowHeight totalHeaderHeight isGroupRow
    (effectiveEnableCellDragAndDrop cfg.hasGroups enableCellDragAndDrop)

/-- `enableDrag={isCellFocused ? enableDrag : false}` — the per-cell drag
flag the row renderer passes to each `Cell` (unnamed Row renderer variants,
e.g. `src/unnamed/part_002` line 193). -/
def cellEnableDrag (isCellFocused : Bool) (rowEnableDrag : Bool) : Bool :=
  if isCellFocused then rowEnableDrag else false

/-- The `enableDrag` value a cell of a rendered row receives: group rows
render no draggable cells, normal rows pass the row's flag only to the
focused cell. -/
def cellDragFor (e : RowElement) (isCellFocused : Bool) : Bool :=
  match e.enableDrag with
  | none => false
  | some d => cellEnableDrag isCellFocused d

/-- `handleMouseDown` of the unnamed `Cell` renderer
(`src/unnamed/part_000` lines 77-93): a mouse-down on the row-header column
(idx 0) dispatches `'SelectCell'` with idx 1 and the single-row selection
`{rowStart: rowIdx, rowEnd: rowIdx, colStart: 1, colEnd: -1}`; a mouse-down
on any other, not currently focused cell dispatches `'SelectCell'` with that
cell's position (`openEditor` from `column.editorOptions?.editOnClick`). -/
def cellMouseDownEvent (colIdx rowIdx : Int) (isCellFocused editOnClick : Bool) :
    Option GridEvent :=
  if colIdx = 0 then
    some (.selectCellEv ⟨1, rowIdx, some ⟨rowIdx, rowIdx, 1, -1⟩⟩ false)
  else if ! isCellFocused then
    some (.selectCellEv ⟨colIdx, rowIdx, none⟩ editOnClick)
  else none

/-- The grid controller's subscription of `selectCell` to `'SelectCell'`
(DataGrid.tsx lines 371-373): how a dispatched event updates grid state. -/
def gridHandleEvent (cfg : GridCfg) (editable : Position → Bool) (st : GridState) :
    GridEvent → GridState
  | .selectCellEv pos openEditor => selectCell cfg editable st pos openEditor
  | _ => st

/-!  Theorems  -/

/-- C1: selection/edit positions always reference in-bounds indices and
out-of-bounds positions are reset: the render-time reset fires exactly when
`selectedPosition.idx >= columns.length` or `selectedPosition.rowIdx >=
rows.length`, and then yields the unselected sentinel `{idx: -1, rowIdx: -1,
mode: 'SELECT'}` with the copied position cleared; `isCellWithinBounds`
holds exactly when `rowIdx ∈ [0, rows.length)` and `idx ∈ [minColIdx,
columns.length)`; and `selectCell` leaves the state unchanged whenever
`isCellWithinBounds` rejects the requested position. -/
theorem c1_selection_bounds_invariant :
    (∀ (cfg : GridCfg) (sp : SelectedState),
      renderResetNeeded cfg sp = true ↔
        (sp.idx ≥ (cfg.numCols : Int) ∨ sp.rowIdx ≥ (cfg.numRows : Int)))
    ∧ (∀ (cfg : GridCfg) (st : GridState), renderResetNeeded cfg st.selected = true →
        (renderReset cfg st).selected = unselectedSentinel
          ∧ (renderReset cfg st).copied = none)
    ∧ (∀ (cfg : GridCfg) (st : GridState), renderResetNeeded cfg st.selected = false →
        renderReset cfg st = st)
    ∧ (∀ (cfg : GridCfg) (p : Position),
        isCellWithinBounds cfg p = true ↔
          (0 ≤ p.rowIdx ∧ p.rowIdx < (cfg.numRows : Int)
            ∧ minColIdx cfg ≤ p.idx ∧ p.idx < (cfg.numCols : Int)))
    ∧ (∀ (cfg : GridCfg) (editable : Position → Bool) (st : GridState)
        (pos : PositionArg) (enableEditor : Bool),
        isCellWithinBounds cfg ⟨pos.idx, pos.rowIdx⟩ = false →
        selectCell cfg editable st pos enableEditor = st) := by
  refine ⟨?_, ?_, ?_, ?_, ?_⟩
  · intro cfg sp
    simp [renderResetNeeded]
  · intro cfg st h
    simp [renderReset, h, unselectedSentinel]
  · intro cfg st h
    simp [renderReset, h]
  · intro cfg p
    simp [isCellWithinBounds]
    tauto
  · intro cfg editable st pos enableEditor h
    simp [selectCell, h]

/-- Witness for C1 at a concrete grid (3 columns, 2 rows): a stale position
`{idx: 5, rowIdx: 0}` is reset to the sentinel with the copied position
cleared, and `selectCell` refuses the out-of-bounds position `{idx: 3,
rowIdx: 0}`. -/
theorem c1_selection_bounds_invariant_w :
    ((renderReset ⟨2, 3, 2, false⟩ ⟨⟨5, 0, .select, none⟩, some ⟨0, 0, 7⟩⟩).selected
        = unselectedSentinel
      ∧ (renderReset ⟨2, 3, 2, false⟩ ⟨⟨5, 0, .select, none⟩, some ⟨0, 0, 7⟩⟩).copied = none)
    ∧ selectCell ⟨2, 3, 2, false⟩ (fun _ => false) ⟨unselectedSentinel, none⟩
        ⟨3, 0, none⟩ false = ⟨unselectedSentinel, none⟩ :=
  ⟨c1_selection_bounds_invariant.2.1 ⟨2, 3, 2, false⟩
      ⟨⟨5, 0, .select, none⟩, some ⟨0, 0, 7⟩⟩ (by decide),
    c1_selection_bounds_invariant.2.2.2.2 ⟨2, 3, 2, false⟩ (fun _ => false)
      ⟨unselectedSentinel, none⟩ ⟨3, 0, none⟩ false (by decide)⟩

/-- C3: `minColIdx` is `-1` exactly when `hasGroups` holds and `0`
otherwise, and for any in-bounds row index, the pseudo-column position
`idx = -1` is accepted by `isCellWithinBounds` if and only if row grouping
is active (`groupBy` non-empty and a `rowGrouper` provided). -/
theorem c3_pseudo_column_in_bounds :
    ∀ (groupBy : List String) (rowGrouperProvided : Bool)
      (numRows numCols rowsCount : Nat) (rowIdx : Int),
      0 ≤ rowIdx → rowIdx < (numRows : Int) →
      (minColIdx ⟨numRows, numCols, rowsCount, hasGroupsOf groupBy rowGrouperProvided⟩
          = if hasGroupsOf groupBy rowGrouperProvided then -1 else 0)
      ∧ (isCellWithinBounds
            ⟨numRows, numCols, rowsCount, hasGroupsOf groupBy rowGrouperProvided⟩
            ⟨-1, rowIdx⟩ = true
          ↔ (groupBy ≠ [] ∧ rowGrouperProvided = true)) := by
  intro groupBy rowGrouperProvided numRows numCols rowsCount rowIdx h0 h1
  constructor
  · rfl
  · cases hg : hasGroupsOf groupBy rowGrouperProvided with
    | false =>
      have hng : ¬(groupBy ≠ [] ∧ rowGrouperProvided = true) := by
        simp only [hasGroupsOf, Bool.and_eq_false_iff, decide_eq_false_iff_not] at hg
        rcases hg with hg | hg
        · intro ⟨ha, _⟩
          exact hg (List.length_pos.mpr ha)
        · intro ⟨_, hb⟩
          rw [hb] at hg
          exact Bool.false_ne_true hg.symm
      simp [isCellWithinBounds, minColIdx, hng]
    | true =>
      have hyg : groupBy ≠ [] ∧ rowGrouperProvided = true := by
        simp only [hasGroupsOf, Bool.and_eq_true, decide_eq_true_eq] at hg
        exact ⟨List.ne_nil_of_length_pos hg.1, hg.2⟩
      simp [isCellWithinBounds, minColIdx, hyg, h0, h1]
      omega

/-- Witness for C3: without grouping `idx = -1` is rejected, with grouping
it is accepted. -/
theorem c3_pseudo_column_in_bounds_w :
    (minColIdx ⟨2, 3, 2, hasGroupsOf [] false⟩
        = if hasGroupsOf [] false then -1 else 0)
    ∧ (isCellWithinBounds ⟨2, 3, 2, hasGroupsOf [] false⟩ ⟨-1, 0⟩ = true
        ↔ (([] : List String) ≠ [] ∧ false = true)) :=
  c3_pseudo_column_in_bounds [] false 2 3 2 0 (by decide) (by decide)

/-- C10: `selectCell` treats `-1` as an extend-to-the-end sentinel: a `sel`
with `colEnd = -1` is expanded to `colEnd = columns.length - 1` (forcing the
focused `idx` to 0 when `rowEnd` is not `-1`), a `sel` with `rowEnd = -1`
is expanded to `rowEnd = rowsCount - 1`; `isCellSelectionWithinBounds`
fails exactly when `rowStart < 0`, `rowEnd ≥ rows.length`, `colStart <
minColIdx` or `colEnd ≥ columns.length`; and when the expanded selection
fails that check `selectCell` returns the state unchanged. -/
theorem c10_selection_sentinels :
    ∀ (cfg : GridCfg) (pos : PositionArg) (s : GridSelection),
      (pos.sel = some s → s.colEnd = -1 → s.rowEnd ≠ -1 →
        adjustPosition cfg pos =
          ⟨0, pos.rowIdx, some ⟨s.rowStart, s.rowEnd, s.colStart, (cfg.numCols : Int) - 1⟩⟩)
      ∧ (pos.sel = some s → s.colEnd = -1 → s.rowEnd = -1 →
        adjustPosition cfg pos =
          ⟨pos.idx, pos.rowIdx,
            some ⟨s.rowStart, (cfg.rowsCount : Int) - 1, s.colStart, (cfg.numCols : Int) - 1⟩⟩)
      ∧ (pos.sel = some s → s.colEnd ≠ -1 → s.rowEnd = -1 →
        adjustPosition cfg pos =
          ⟨pos.idx, pos.rowIdx,
            some ⟨s.rowStart, (cfg.rowsCount : Int) - 1, s.colStart, s.colEnd⟩⟩)
      ∧ (isCellSelectionWithinBounds cfg s = false ↔
          (s.rowStart < 0 ∨ s.rowEnd ≥ (cfg.numRows : Int)
            ∨ s.colStart < minColIdx cfg ∨ s.colEnd ≥ (cfg.numCols : Int)))
      ∧ (∀ (editable : Position → Bool) (st : GridState) (enableEditor : Bool)
          (s' : GridSelection),
          (adjustPosition cfg pos).sel = some s' →
          isCellSelectionWithinBounds cfg s' = false →
          selectCell cfg editable st pos enableEditor = st) := by
  intro cfg pos s
  refine ⟨?_, ?_, ?_, ?_, ?_⟩
  · intro hsel hc hr
    simp [adjustPosition, hsel, hc, hr]
  · intro hsel hc hr
    simp [adjustPosition, hsel, hc, hr]
  · intro hsel hc hr
    simp [adjustPosition, hsel, hc, hr]
  · simp [isCellSelectionWithinBounds]
    omega
  · intro editable st enableEditor s' hadj hbad
    by_cases hwb : isCellWithinBounds cfg ⟨pos.idx, pos.rowIdx⟩
    · simp [selectCell, hwb, hadj, hbad]
    · simp [selectCell, hwb]

/-- Witness for C10 at a 3-row, 4-column grid: the requested selection
`{rowStart: 0, rowEnd: 1, colStart: 1, colEnd: -1}` at position `{idx: 2,
rowIdx: 1}` is expanded to `colEnd = 3` with the focused `idx` forced to 0,
and a selection reaching `rowEnd = 3 ≥ rows.length` makes `selectCell`
return the state unchanged. -/
theorem c10_selection_sentinels_w :
    (adjustPosition ⟨3, 4, 3, false⟩ ⟨2, 1, some ⟨0, 1, 1, -1⟩⟩ =
        ⟨0, 1, some ⟨0, 1, 1, (3 : Int)⟩⟩)
    ∧ selectCell ⟨3, 4, 3, false⟩ (fun _ => false) ⟨unselectedSentinel, none⟩
        ⟨2, 1, some ⟨0, 3, 1, 2⟩⟩ false = ⟨unselectedSentinel, none⟩ :=
  ⟨by
      have h := (c10_selection_sentinels ⟨3, 4, 3, false⟩ ⟨2, 1, some ⟨0, 1, 1, -1⟩⟩
        ⟨0, 1, 1, -1⟩).1 rfl rfl (by decide)
      simpa using h,
    (c10_selection_sentinels ⟨3, 4, 3, false⟩ ⟨2, 1, some ⟨0, 3, 1, 2⟩⟩
        ⟨0, 3, 1, 2⟩).2.2.2.2 (fun _ => false) ⟨unselectedSentinel, none⟩ false
      ⟨0, 3, 1, 2⟩ (by decide) (by decide)⟩

/-- C2 counterexample: the claim "a cell is inside the selection range if
and only if `rowStart <= rowIdx <= rowEnd` and `colStart <= colIdx <=
colEnd`" fails on `isCellSelected` (src/Row.tsx lines 44-52) at the focused
cell: with the focused position `(idx 0, rowIdx 0)` and the selection
`{0, 0, 0, 0}`, all four inclusive bounds hold for cell `(0, 0)` yet
`isCellSelected` returns `false`. -/
theorem c2_range_membership_cex :
    ¬ (isCellSelected (some ⟨0, 0, some ⟨0, 0, 0, 0⟩⟩) 0 0 = true ↔
        ((0 : Int) ≤ 0 ∧ (0 : Int) ≤ 0 ∧ (0 : Int) ≤ 0 ∧ (0 : Int) ≤ 0)) := by
  decide

/-- C2 (amended): with a selection present, `isCellSelected` accepts a cell
if and only if it lies inside the rectangle with all four bounds inclusive
AND it is not the focused cell itself; and `updateSelection` called with no
existing selection starts (before the per-key adjustment) from the range
collapsed to the single cell `{rowStart: row, rowEnd: row, colStart: col,
colEnd: col}`. -/
theorem c2_range_membership :
    (∀ (p : SelectedCellPropsView) (sel : GridSelection) (rowIdx colIdx : Int),
      p.selection = some sel →
      (isCellSelected (some p) rowIdx colIdx = true ↔
        ((sel.rowStart ≤ rowIdx ∧ rowIdx ≤ sel.rowEnd
            ∧ sel.colStart ≤ colIdx ∧ colIdx ≤ sel.colEnd)
          ∧ ¬(p.idx = colIdx ∧ p.rowIdx = rowIdx))))
    ∧ (∀ row col : Int, initSelection row col none = ⟨row, row, col, col⟩) := by
  constructor
  · intro p sel rowIdx colIdx h
    by_cases hf : p.idx = colIdx ∧ p.rowIdx = rowIdx
    · simp [isCellSelected, h, hf]
    · by_cases hb : sel.rowStart ≤ rowIdx ∧ sel.rowEnd ≥ rowIdx
          ∧ sel.colStart ≤ colIdx ∧ sel.colEnd ≥ colIdx
      · simp only [isCellSelected, h, if_neg hf, if_pos hb]
        constructor
        · intro _
          exact ⟨⟨hb.1, hb.2.1, hb.2.2.1, hb.2.2.2⟩, hf⟩
        · intro _
          trivial
      · simp only [isCellSelected, h, if_neg hf, if_neg hb]
        constructor
        · intro hfalse
          exact absurd hfalse (by simp)
        · intro ⟨hbnd, _⟩
          exact absurd ⟨hbnd.1, hbnd.2.1, hbnd.2.2.1, hbnd.2.2.2⟩ hb
  · intro row col
    rfl

/-- Witness for C2 (amended): for the focused position `(0, 0)` with
selection `{0, 1, 0, 1}`, the non-focused cell `(0, 1)` is reported
selected. -/
theorem c2_range_membership_w :
    isCellSelected (some ⟨0, 0, some ⟨0, 1, 0, 1⟩⟩) 0 1 = true ↔
      (((0 : Int) ≤ 0 ∧ (0 : Int) ≤ 1 ∧ (0 : Int) ≤ 1 ∧ (1 : Int) ≤ 1)
        ∧ ¬((0 : Int) = 1 ∧ (0 : Int) = 0)) :=
  c2_range_membership.1 ⟨0, 0, some ⟨0, 1, 0, 1⟩⟩ ⟨0, 1, 0, 1⟩ 0 1 rfl

/-- Helper: membership in the fold of the group-row selection loop: a key
listed among the children ends up in the set exactly when `checked`, any
other key keeps its previous membership. -/
theorem mem_applyChildSelection {K : Type} [DecidableEq K] (checked : Bool) :
    ∀ (childKeys : List K) (selected : Finset K) (k : K),
      (k ∈ applyChildSelection checked childKeys selected ↔
        (if k ∈ childKeys then checked = true else k ∈ selected)) := by
  intro childKeys
  induction childKeys with
  | nil =>
    intro selected k
    simp [applyChildSelection]
  | cons c cs ih =>
    intro selected k
    have h2 : applyChildSelection checked (c :: cs) selected =
        applyChildSelection checked cs
          (if checked then insert c selected else selected.erase c) := rfl
    rw [h2, ih]
    by_cases hk : k ∈ cs <;> by_cases hkc : k = c <;> cases checked <;>
      simp [hk, hkc, Finset.mem_insert, Finset.mem_erase]

/-- C4: a `'SelectRow'` event on a group row adds (when checked) or removes
(when unchecked) the rowKey value of every child row, leaves any key not
among the children unchanged, and calls `onSelectedRowsChange` exactly once
with the resulting set. -/
theorem c4_group_row_select :
    ∀ {K : Type} [DecidableEq K] (selected : Finset K) (childKeys : List K)
      (checked : Bool),
      handleGroupRowSelection selected childKeys checked =
          [applyChildSelection checked childKeys selected]
      ∧ (handleGroupRowSelection selected childKeys checked).length = 1
      ∧ (∀ k ∈ childKeys,
          (k ∈ applyChildSelection checked childKeys selected ↔ checked = true))
      ∧ (∀ k, k ∉ childKeys →
          (k ∈ applyChildSelection checked childKeys selected ↔ k ∈ selected)) := by
  intro K _ selected childKeys checked
  refine ⟨rfl, rfl, ?_, ?_⟩
  · intro k hk
    rw [mem_applyChildSelection checked childKeys selected k, if_pos hk]
  · intro k hk
    rw [mem_applyChildSelection checked childKeys selected k, if_neg hk]

/-- Witness for C4: checking the group row with children `{1, 2}` over the
previous selection `{2, 3}` keeps `3` and makes `1` and `2` selected. -/
theorem c4_group_row_select_w :
    (1 ∈ applyChildSelection true [1, 2] ({2, 3} : Finset ℕ) ↔ true = true)
    ∧ (3 ∈ applyChildSelection true [1, 2] ({2, 3} : Finset ℕ) ↔ 3 ∈ ({2, 3} : Finset ℕ)) :=
  ⟨(c4_group_row_select ({2, 3} : Finset ℕ) [1, 2] true).2.2.1 1 (by decide),
    (c4_group_row_select ({2, 3} : Finset ℕ) [1, 2] true).2.2.2 3 (by decide)⟩

/-- C5: with a focused, in-bounds group row at `idx = -1`, ArrowLeft on an
expanded row (or ArrowRight on a collapsed one) makes `handleKeyDown`
dispatch `'ToggleGroup'` with that row's id, and the subscribed
`toggleGroup` handler toggles exactly that id's membership in
`expandedGroupIds`, leaving every other id unchanged. -/
theorem c5_toggle_group :
    ∀ (enableCellCopyPaste ctrlHeld isExpanded : Bool) (key : String)
      (groupId : Nat) (S : Finset Nat),
      ((key = "ArrowLeft" ∧ isExpanded = true)
        ∨ (key = "ArrowRight" ∧ isExpanded = false)) →
      handleKeyDownEffect enableCellCopyPaste ctrlHeld true true (-1) key isExpanded groupId
          = .dispatch (.toggleGroupEv groupId)
      ∧ (∀ g, g ∈ toggleGroup S groupId ↔ (if g = groupId then groupId ∉ S else g ∈ S)) := by
  intro enableCellCopyPaste ctrlHeld isExpanded key groupId S h
  constructor
  · rcases h with ⟨hk, he⟩ | ⟨hk, he⟩ <;> subst hk <;> subst he <;>
      simp [handleKeyDownEffect]
  · intro g
    by_cases hg : groupId ∈ S <;> by_cases hgg : g = groupId <;>
      simp [toggleGroup, hg, hgg, Finset.mem_erase, Finset.mem_insert]

/-- Witness for C5: ArrowLeft on the expanded group row with id 7 dispatches
`ToggleGroup 7`, and toggling 7 on `{7, 9}` removes it while 9 stays. -/
theorem c5_toggle_group_w :
    (handleKeyDownEffect false false true true (-1) "ArrowLeft" true 7
        = .dispatch (.toggleGroupEv 7))
    ∧ (7 ∈ toggleGroup ({7, 9} : Finset ℕ) 7 ↔
        (if 7 = 7 then 7 ∉ ({7, 9} : Finset ℕ) else 7 ∈ ({7, 9} : Finset ℕ)))
    ∧ (9 ∈ toggleGroup ({7, 9} : Finset ℕ) 7 ↔
        (if 9 = 7 then 7 ∉ ({7, 9} : Finset ℕ) else 9 ∈ ({7, 9} : Finset ℕ))) :=
  ⟨(c5_toggle_group false false true "ArrowLeft" 7 {7, 9} (Or.inl ⟨rfl, rfl⟩)).1,
    (c5_toggle_group false false true "ArrowLeft" 7 {7, 9} (Or.inl ⟨rfl, rfl⟩)).2 7,
    (c5_toggle_group false false true "ArrowLeft" 7 {7, 9} (Or.inl ⟨rfl, rfl⟩)).2 9⟩

/-- C6: `handlePaste` performs no row update (and leaves grid state
unchanged) when nothing was copied, when the selected cell is not editable,
or when the target cell equals the copied cell; when all preconditions hold
it emits exactly one `COPY_PASTE` event with `fromRow`/`fromCellKey` from
the copied position, `toRow`/`cellKey` from the selected position, and the
copied value keyed by the target column's key. -/
theorem c6_paste_preconditions :
    ∀ (cols : List String) (rawIdx : Int → Int) (copied : Option CopiedCell)
      (selected : Position) (selectedEditable : Bool),
      (copied = none →
        handlePaste cols rawIdx copied selected selectedEditable = none)
      ∧ (selectedEditable = false →
        handlePaste cols rawIdx copied selected selectedEditable = none)
      ∧ (∀ c, copied = some c → c.idx = selected.idx → c.rowIdx = selected.rowIdx →
        handlePaste cols rawIdx copied selected selectedEditable = none)
      ∧ (∀ c, copied = some c → selectedEditable = true →
        ¬(c.idx = selected.idx ∧ c.rowIdx = selected.rowIdx) →
        handlePaste cols rawIdx copied selected selectedEditable = some
          { cellKey := colKeyAt cols selected.idx
            fromRow := rawIdx c.rowIdx
            toRow := rawIdx selected.rowIdx
            updatedKey := colKeyAt cols selected.idx
            updatedValue := c.value
            action := "COPY_PASTE"
            fromCellKey := colKeyAt cols c.idx }) := by
  intro cols rawIdx copied selected selectedEditable
  refine ⟨?_, ?_, ?_, ?_⟩
  · intro h
    simp [handlePaste, h]
  · intro h
    cases copied with
    | none => simp [handlePaste]
    | some c => simp [handlePaste, h]
  · intro c hc hi hr
    simp [handlePaste, hc, hi, hr]
  · intro c hc he hne
    simp [handlePaste, hc, he, hne]

/-- Witness for C6: with columns `["a", "b"]`, identity raw-row mapping,
copied cell `(0, 0)` holding value 42 and the editable selected cell
`(1, 1)`, the paste emits the `COPY_PASTE` event targeting column `"b"`. -/
theorem c6_paste_preconditions_w :
    handlePaste ["a", "b"] (fun i => i) (some ⟨0, 0, 42⟩) ⟨1, 1⟩ true = some
      { cellKey := colKeyAt ["a", "b"] 1
        fromRow := 0
        toRow := 1
        updatedKey := colKeyAt ["a", "b"] 1
        updatedValue := 42
        action := "COPY_PASTE"
        fromCellKey := colKeyAt ["a", "b"] 0 } :=
  (c6_paste_preconditions ["a", "b"] (fun i => i) (some ⟨0, 0, 42⟩) ⟨1, 1⟩ true).2.2.2
    ⟨0, 0, 42⟩ rfl rfl (by decide)

/-- Helper: how many elements of the viewport loop carry row index `r`:
exactly one when `r` lies in the `fuel`-long window starting at `start`,
none otherwise. -/
theorem viewportLoop_count (rowHeight totalHeaderHeight : Nat)
    (isGroupRow : Nat → Bool) (drag : Bool) :
    ∀ (fuel start r : Nat),
      ((viewportLoop rowHeight totalHeaderHeight isGroupRow drag start fuel).map
          RowElement.rowIdx).count r =
        if start ≤ r ∧ r < start + fuel then 1 else 0 := by
  intro fuel
  induction fuel with
  | zero =>
    intro start r
    rw [if_neg (by omega)]
    simp [viewportLoop]
  | succ n ih =>
    intro start r
    simp only [viewportLoop, viewportRowElement, List.map_cons, List.count_cons,
      ih (start + 1) r]
    split_ifs <;> simp_all <;> omega

/-- Helper: every element the viewport loop produces sits at vertical
offset `rowIdx * rowHeight + totalHeaderHeight`. -/
theorem viewportLoop_top (rowHeight totalHeaderHeight : Nat)
    (isGroupRow : Nat → Bool) (drag : Bool) :
    ∀ (fuel start : Nat),
      ∀ e ∈ viewportLoop rowHeight totalHeaderHeight isGroupRow drag start fuel,
        e.top = e.rowIdx * rowHeight + totalHeaderHeight := by
  intro fuel
  induction fuel with
  | zero =>
    intro start e he
    simp [viewportLoop] at he
  | succ n ih =>
    intro start e he
    rcases List.mem_cons.mp he with he | he
    · subst he
      rfl
    · exact ih (start + 1) e he

/-- C7: `getViewportRows` renders exactly one row element for each row
index in the inclusive range `[rowOverscanStartIdx, rowOverscanEndIdx]` and
none outside it, and each rendered row is placed at vertical offset
`rowIdx * rowHeight + totalHeaderHeight`. -/
theorem c7_viewport_rows :
    ∀ (rowOverscanStartIdx rowOverscanEndIdx rowHeight totalHeaderHeight : Nat)
      (isGroupRow : Nat → Bool) (enableCellDragAndDrop : Bool),
      (∀ r : Nat,
        ((getViewportRows rowOverscanStartIdx rowOverscanEndIdx rowHeight totalHeaderHeight
            isGroupRow enableCellDragAndDrop).map RowElement.rowIdx).count r =
          if rowOverscanStartIdx ≤ r ∧ r ≤ rowOverscanEndIdx then 1 else 0)
      ∧ (∀ e ∈ getViewportRows rowOverscanStartIdx rowOverscanEndIdx rowHeight
            totalHeaderHeight isGroupRow enableCellDragAndDrop,
          e.top = e.rowIdx * rowHeight + totalHeaderHeight) := by
  intro s en rh hh isG drag
  constructor
  · intro r
    rw [getViewportRows, viewportLoop_count]
    split_ifs <;> first | rfl | omega
  · intro e he
    exact viewportLoop_top rh hh isG drag _ s e he

/-- Witness for C7: the viewport `[2, 4]` with row height 20 and header
height 30 renders rows 2, 3, 4 once each, row 5 not at all, and places the
first rendered element at `2 * 20 + 30 = 70`. -/
theorem c7_viewport_rows_w :
    (((getViewportRows 2 4 20 30 (fun _ => false) false).map RowElement.rowIdx).count 3
        = if 2 ≤ 3 ∧ 3 ≤ 4 then 1 else 0)
    ∧ (((getViewportRows 2 4 20 30 (fun _ => false) false).map RowElement.rowIdx).count 5
        = if 2 ≤ 5 ∧ 5 ≤ 4 then 1 else 0)
    ∧ (viewportRowElement 20 30 (fun _ => false) false 2).top =
        (viewportRowElement 20 30 (fun _ => false) false 2).rowIdx * 20 + 30 :=
  ⟨(c7_viewport_rows 2 4 20 30 (fun _ => false) false).1 3,
    (c7_viewport_rows 2 4 20 30 (fun _ => false) false).1 5,
    (c7_viewport_rows 2 4 20 30 (fun _ => false) false).2
      (viewportRowElement 20 30 (fun _ => false) false 2) (by simp [getViewportRows, viewportLoop])⟩

/-- Helper: the `enableDrag` prop of every rendered row element is either
absent (group rows) or the flag the loop was called with. -/
theorem viewportLoop_enableDrag (rowHeight totalHeaderHeight : Nat)
    (isGroupRow : Nat → Bool) (drag : Bool) :
    ∀ (fuel start : Nat),
      ∀ e ∈ viewportLoop rowHeight totalHeaderHeight isGroupRow drag start fuel,
        e.enableDrag = none ∨ e.enableDrag = some drag := by
  intro fuel
  induction fuel with
  | zero =>
    intro start e he
    simp [viewportLoop] at he
  | succ n ih =>
    intro start e he
    rcases List.mem_cons.mp he with he | he
    · subst he
      simp only [viewportRowElement]
      split_ifs <;> simp
    · exact ih (start + 1) e he

/-- C9: when row grouping is active, cell drag-and-drop is disabled
regardless of the `enableCellDragAndDrop` prop: the effective flag is
forced to `false` before any row is rendered, and no cell of any rendered
row (focused or not) receives `enableDrag = true`. -/
theorem c9_no_drag_in_treegrid :
    ∀ (cfg : GridCfg) (enableCellDragAndDrop : Bool)
      (rowOverscanStartIdx rowOverscanEndIdx rowHeight totalHeaderHeight : Nat)
      (isGroupRow : Nat → Bool),
      cfg.hasGroups = true →
      effectiveEnableCellDragAndDrop cfg.hasGroups enableCellDragAndDrop = false
      ∧ (∀ e ∈ renderedRows cfg rowOverscanStartIdx rowOverscanEndIdx rowHeight
            totalHeaderHeight isGroupRow enableCellDragAndDrop,
          ∀ isCellFocused, cellDragFor e isCellFocused = false) := by
  intro cfg prop s en rh hh isG hg
  have heff : effectiveEnableCellDragAndDrop cfg.hasGroups prop = false := by
    rw [hg]
    rfl
  refine ⟨heff, ?_⟩
  intro e he focused
  have hdrag := viewportLoop_enableDrag rh hh isG
    (effectiveEnableCellDragAndDrop cfg.hasGroups prop) _ s e he
  rw [heff] at hdrag
  rcases hdrag with hd | hd <;>
    simp [cellDragFor, hd, cellEnableDrag]

/-- Witness for C9: in a grouped grid (2 rows, 3 columns) rendered with
`enableCellDragAndDrop = true`, the first rendered row's focused cell still
gets `enableDrag = false`. -/
theorem c9_no_drag_in_treegrid_w :
    effectiveEnableCellDragAndDrop (⟨2, 3, 2, true⟩ : GridCfg).hasGroups true = false
    ∧ cellDragFor (viewportRowElement 20 30 (fun _ => false)
        (effectiveEnableCellDragAndDrop true true) 0) true = false :=
  ⟨(c9_no_drag_in_treegrid ⟨2, 3, 2, true⟩ true 0 1 20 30 (fun _ => false) rfl).1,
    (c9_no_drag_in_treegrid ⟨2, 3, 2, true⟩ true 0 1 20 30 (fun _ => false) rfl).2
      (viewportRowElement 20 30 (fun _ => false) (effectiveEnableCellDragAndDrop true true) 0)
      (by simp [renderedRows, getViewportRows, viewportLoop]) true⟩

/-- C8 counterexample: not every dispatched in-bounds position becomes the
selected position.  On a 2-row, 3-column grid, the mouse-down on a
row-header cell (column 0, row 0) dispatches `'SelectCell'` carrying
`idx = 1`, and that position is in bounds, yet the subscribed `selectCell`
stores `idx = 0` (it forces `idx` to 0 while expanding `colEnd = -1`). -/
theorem c8_select_cell_events_cex :
    cellMouseDownEvent 0 0 false false =
        some (.selectCellEv ⟨1, 0, some ⟨0, 0, 1, -1⟩⟩ false)
    ∧ isCellWithinBounds ⟨2, 3, 2, false⟩ ⟨1, 0⟩ = true
    ∧ (gridHandleEvent ⟨2, 3, 2, false⟩ (fun _ => false) ⟨unselectedSentinel, none⟩
        (.selectCellEv ⟨1, 0, some ⟨0, 0, 1, -1⟩⟩ false)).selected.idx = 0 := by
  refine ⟨rfl, by decide, ?_⟩
  rfl

/-- C8 (amended): cell selection goes through the event bus: a mouse-down
on a column-0 cell dispatches `'SelectCell'` with `idx = 1` and the
single-row selection `{rowStart: rowIdx, rowEnd: rowIdx, colStart: 1,
colEnd: -1}`, a mouse-down on any other not-focused cell dispatches
`'SelectCell'` with that cell's `{idx, rowIdx}` (and an already focused
cell dispatches nothing); the grid controller's `'SelectCell'` subscription
runs `selectCell` on the event, so every dispatched in-bounds position
carrying no selection becomes the selected position verbatim, while the
column-0 event is stored with `idx` forced to 0 and `colEnd` expanded to
`columns.length - 1`. -/
theorem c8_select_cell_events :
    ∀ (cfg : GridCfg) (editable : Position → Bool) (st : GridState)
      (colIdx rowIdx : Int) (isCellFocused editOnClick : Bool),
      (colIdx = 0 → cellMouseDownEvent colIdx rowIdx isCellFocused editOnClick =
        some (.selectCellEv ⟨1, rowIdx, some ⟨rowIdx, rowIdx, 1, -1⟩⟩ false))
      ∧ (colIdx ≠ 0 → isCellFocused = false →
        cellMouseDownEvent colIdx rowIdx isCellFocused editOnClick =
          some (.selectCellEv ⟨colIdx, rowIdx, none⟩ editOnClick))
      ∧ (colIdx ≠ 0 → isCellFocused = true →
        cellMouseDownEvent colIdx rowIdx isCellFocused editOnClick = none)
      ∧ (∀ openEditor,
        gridHandleEvent cfg editable st (.selectCellEv ⟨colIdx, rowIdx, none⟩ openEditor) =
          selectCell cfg editable st ⟨colIdx, rowIdx, none⟩ openEditor)
      ∧ (isCellWithinBounds cfg ⟨colIdx, rowIdx⟩ = true → ∀ openEditor,
        (gridHandleEvent cfg editable st
            (.selectCellEv ⟨colIdx, rowIdx, none⟩ openEditor)).selected.idx = colIdx
        ∧ (gridHandleEvent cfg editable st
            (.selectCellEv ⟨colIdx, rowIdx, none⟩ openEditor)).selected.rowIdx = rowIdx)
      ∧ (0 ≤ rowIdx → rowIdx < (cfg.numRows : Int) → 1 < (cfg.numCols : Int) →
        (gridHandleEvent cfg editable st
            (.selectCellEv ⟨1, rowIdx, some ⟨rowIdx, rowIdx, 1, -1⟩⟩ false)).selected =
          ⟨0, rowIdx, .select, some ⟨rowIdx, rowIdx, 1, (cfg.numCols : Int) - 1⟩⟩) := by
  intro cfg editable st colIdx rowIdx isCellFocused editOnClick
  refine ⟨?_, ?_, ?_, ?_, ?_, ?_⟩
  · intro h
    simp [cellMouseDownEvent, h]
  · intro h hf
    simp [cellMouseDownEvent, h, hf]
  · intro h hf
    simp [cellMouseDownEvent, h, hf]
  · intro openEditor
    rfl
  · intro hwb openEditor
    simp only [gridHandleEvent, selectCell, hwb, Bool.not_true, Bool.false_eq_true, if_false]
    have hadj : adjustPosition cfg ⟨colIdx, rowIdx, none⟩ = ⟨colIdx, rowIdx, none⟩ := rfl
    rw [hadj]
    simp only [storeSelected]
    split <;> simp
  · intro h0 h1 h2
    have hwb : isCellWithinBounds cfg ⟨1, rowIdx⟩ = true := by
      simp [isCellWithinBounds, minColIdx]
      split <;> omega
    have hrne : rowIdx ≠ -1 := by omega
    have hadj : adjustPosition cfg ⟨1, rowIdx, some ⟨rowIdx, rowIdx, 1, -1⟩⟩ =
        ⟨0, rowIdx, some ⟨rowIdx, rowIdx, 1, (cfg.numCols : Int) - 1⟩⟩ := by
      simp [adjustPosition, hrne]
    have hsb : isCellSelectionWithinBounds cfg
        ⟨rowIdx, rowIdx, 1, (cfg.numCols : Int) - 1⟩ = true := by
      simp [isCellSelectionWithinBounds, minColIdx]
      split <;> omega
    simp only [gridHandleEvent, selectCell, hwb, Bool.not_true, Bool.false_eq_true, if_false,
      hadj, hsb, storeSelected]
    simp

/-- Witness for C8 (amended): on a 2-row, 3-column grid, mouse-down on the
not-focused cell `(idx 2, rowIdx 1)` dispatches its own position, which
becomes the selected position, and the column-0 event at row 1 is stored
with `idx = 0` and the selection expanded to `colEnd = 2`. -/
theorem c8_select_cell_events_w :
    (cellMouseDownEvent 2 1 false false =
        some (.selectCellEv ⟨2, 1, none⟩ false))
    ∧ ((gridHandleEvent ⟨2, 3, 2, false⟩ (fun _ => false) ⟨unselectedSentinel, none⟩
          (.selectCellEv ⟨2, 1, none⟩ false)).selected.idx = 2
        ∧ (gridHandleEvent ⟨2, 3, 2, false⟩ (fun _ => false) ⟨unselectedSentinel, none⟩
          (.selectCellEv ⟨2, 1, none⟩ false)).selected.rowIdx = 1)
    ∧ (gridHandleEvent ⟨2, 3, 2, false⟩ (fun _ => false) ⟨unselectedSentinel, none⟩
          (.selectCellEv ⟨1, 1, some ⟨1, 1, 1, -1⟩⟩ false)).selected =
        ⟨0, 1, .select, some ⟨1, 1, 1, (2 : Int)⟩⟩ :=
  ⟨(c8_select_cell_events ⟨2, 3, 2, false⟩ (fun _ => false) ⟨unselectedSentinel, none⟩
      2 1 false false).2.1 (by decide) rfl,
    (c8_select_cell_events ⟨2, 3, 2, false⟩ (fun _ => false) ⟨unselectedSentinel, none⟩
      2 1 false false).2.2.2.2.1 (by decide) false,
    by
      have h := (c8_select_cell_events ⟨2, 3, 2, false⟩ (fun _ => false)
        ⟨unselectedSentinel, none⟩ 2 1 false false).2.2.2.2.2 (by decide) (by decide) (by decide)
      simpa using h⟩

end RDG
